import Mathlib

set_option maxRecDepth 100000

/-!
Shallow embedding of the TypeScript declaration files of the `esx.js`
repository (`src/@types/common.d.ts` and `src/@types/server.d.ts`).

The repository contains only ambient type declarations: interfaces, two
classes, and documentation comments.  The embedding therefore models the
declaration syntax itself: a grammar `Ty` of the type expressions that
occur in the two files, members (data fields and method signatures, the
latter with an `Option` body slot that declaration files always leave
empty), and top-level declarations.  Both files are transcribed
declaration by declaration, member by member, from the source.
-/

namespace ESXJS

/-- Grammar of the TypeScript type expressions occurring in the two
declaration files.  Function types appear with zero, one or three
parameters, and object literal types with a single (possibly optional)
field, because those are the only shapes the source uses. -/
inductive Ty : Type where
  | num : Ty
  | str : Ty
  | bool : Ty
  | any : Ty
  | void : Ty
  | undef : Ty
  | litTrue : Ty
  | tyvar (n : String) : Ty
  | ref (n : String) : Ty
  | arr (t : Ty) : Ty
  | rcd (k v : Ty) : Ty
  | tup (a b : Ty) : Ty
  | union (a b : Ty) : Ty
  | inter (a b : Ty) : Ty
  | part (t : Ty) : Ty
  | obj1 (fname : String) (t : Ty) (opt : Bool) : Ty
  | fn0 (ret : Ty) : Ty
  | fn1 (a ret : Ty) : Ty
  | fn3 (a b c ret : Ty) : Ty
deriving DecidableEq

/-- Executable statements, as they would appear in a method body.  The
declaration files contain none, so every body slot in the transcription
below is `none`; the grammar exists so that the absence of bodies is a
contentful statement. -/
inductive Stmt : Type where
  | call (callee : String) (args : List String) : Stmt
  | assign (lhs rhs : String) : Stmt
  | ret (e : Option String) : Stmt

/-- A parameter of a declared method: name, type, whether it is marked
optional (`?`), and whether it is a rest parameter (`...`). -/
structure Param : Type where
  pname : String
  ty : Ty
  opt : Bool
  rest : Bool
deriving DecidableEq

/-- Plain parameter. -/
def pr (n : String) (t : Ty) : Param := ⟨n, t, false, false⟩

/-- Optional parameter (`name?: T`). -/
def po (n : String) (t : Ty) : Param := ⟨n, t, true, false⟩

/-- Rest parameter (`...name: T`). -/
def pRest (n : String) (t : Ty) : Param := ⟨n, t, false, true⟩

/-- A member of an interface or class: a data field, or a method
signature (type parameters, parameters, return type, optional body). -/
inductive Member : Type where
  | field (fname : String) (ty : Ty) : Member
  | method (mname : String) (typarams : List String) (params : List Param)
      (ret : Ty) (body : Option (List Stmt)) : Member

/-- Field member shorthand. -/
def fld (n : String) (t : Ty) : Member := .field n t

/-- Non-generic method signature shorthand (no body: declaration files
carry signatures only). -/
def mth (n : String) (ps : List Param) (r : Ty) : Member := .method n [] ps r none

/-- Generic method signature shorthand. -/
def mthG (n : String) (tps : List String) (ps : List Param) (r : Ty) : Member :=
  .method n tps ps r none

/-- Kind of a top-level declaration: `interface` or `class`. -/
inductive DeclKind : Type where
  | iface : DeclKind
  | cls : DeclKind
deriving DecidableEq

/-- A top-level type declaration of one of the two files. -/
structure Decl : Type where
  dname : String
  kind : DeclKind
  extendsClause : Option String
  implementsClause : Option String
  members : List Member

/-- Interface declaration shorthand. -/
def iface (n : String) (ms : List Member) : Decl := ⟨n, .iface, none, none, ms⟩

/-! ### `src/@types/common.d.ts` -/

/-- `export interface PlayerData` (common.d.ts lines 1-16). -/
def PlayerData : Decl := iface "PlayerData"
  [ fld "accounts" (.arr (.ref "Account"))
  , fld "coords" (.ref "Coords")
  , fld "group" .str
  , fld "identifier" .str
  , fld "inventory" (.arr (.ref "InventoryItem"))
  , fld "job" (.ref "Job")
  , fld "loadout" (.arr (.ref "LoadoutItem"))
  , fld "name" .str
  , fld "playerId" .num
  , fld "source" .num
  , fld "variables" (.rcd .str .any)
  , fld "weight" .num
  , fld "maxWeight" .num
  , fld "metadata" (.rcd .str .any) ]

/-- `export interface InventoryItem` (common.d.ts lines 18-26). -/
def InventoryItem : Decl := iface "InventoryItem"
  [ fld "name" .str
  , fld "count" .num
  , fld "label" .str
  , fld "weight" .num
  , fld "usable" .bool
  , fld "rare" .bool
  , fld "canRemove" .bool ]

/-- `export interface Job` (common.d.ts lines 28-38). -/
def Job : Decl := iface "Job"
  [ fld "id" .num
  , fld "name" .str
  , fld "label" .str
  , fld "grade" .num
  , fld "grade_name" .str
  , fld "grade_label" .str
  , fld "grade_salary" .num
  , fld "skin_male" (.arr .any)
  , fld "skin_female" (.arr .any) ]

/-- `export interface LoadoutItem` (common.d.ts lines 40-45). -/
def LoadoutItem : Decl := iface "LoadoutItem"
  [ fld "name" .str
  , fld "ammo" .num
  , fld "label" .str
  , fld "components" (.arr .any) ]

/-- `export interface Coords` (common.d.ts lines 47-51); note the
capitalised third field name, exactly as in the source. -/
def Coords : Decl := iface "Coords"
  [ fld "x" .num
  , fld "y" .num
  , fld "Z" .num ]

/-- `export interface Account` (common.d.ts lines 53-57). -/
def Account : Decl := iface "Account"
  [ fld "name" .str
  , fld "money" .num
  , fld "label" .str ]

/-- `export interface Weapon` (common.d.ts lines 59-63). -/
def Weapon : Decl := iface "Weapon"
  [ fld "name" .str
  , fld "label" .str
  , fld "components" (.arr (.ref "WeaponComponent")) ]

/-- `export interface WeaponComponent` (common.d.ts lines 65-69). -/
def WeaponComponent : Decl := iface "WeaponComponent"
  [ fld "name" .str
  , fld "hash" .num
  , fld "label" .str ]

/-- `export interface Math` (common.d.ts lines 71-90). -/
def Math : Decl := iface "Math"
  [ mth "Round" [pr "value" .num, po "numDecimalPlaces" .num] .num
  , mth "GroupDigits" [pr "number" .num] .str
  , mth "Trim" [pr "value" .str] .str ]

/-- `export interface Table` (common.d.ts lines 92-126). -/
def Table : Decl := iface "Table"
  [ mth "SizeOf" [pr "t" .any] .num
  , mth "Set" [pr "t" .any] (.rcd .any .litTrue)
  , mth "IndexOf" [pr "t" .any, pr "value" .any] .num
  , mth "LastIndexOf" [pr "t" .any, pr "value" .any] .num
  , mth "Find" [pr "t" .any, pr "cb" (.fn1 .any .bool)] (.union .any .undef)
  , mth "FindIndex" [pr "t" .any, pr "cb" (.fn1 .any .bool)] .num
  , mthG "Filter" ["T"] [pr "t" (.tyvar "T"), pr "cb" (.fn1 .any .bool)]
      (.part (.tyvar "T"))
  , mth "Map" [pr "t" .any, pr "cb" (.fn1 .any .any)] .any
  , mth "Reverse" [pr "t" .any, pr "cb" (.fn1 .any .bool)] .any
  , mthG "Clone" ["T"] [pr "t" (.tyvar "T")] (.tyvar "T")
  , mthG "Concat" ["T1", "T2"] [pr "t1" (.tyvar "T1"), pr "t2" (.tyvar "T2")]
      (.inter (.tyvar "T1") (.tyvar "T2"))
  , mth "Join" [pr "t" .any, pr "sep" .str] .str
  , mth "TableContains" [pr "tab" .any, pr "val" .any] .bool
  , mthG "Sort" ["T"] [pr "t" (.tyvar "T"), po "order" (.fn3 (.tyvar "T") .any .any .bool)]
      (.tyvar "T") ]

/-- `export interface Common` (common.d.ts lines 128-183). -/
def Common : Decl := iface "Common"
  [ mth "GetRandomString" [pr "length" .num] .str
  , mth "GetWeaponList" [] (.arr (.ref "Weapon"))
  , mth "GetWeaponLabel" [pr "weaponName" .str] .str
  , mth "GetWeaponComponent" [pr "weaponName" (.union .str .num), pr "weaponComponent" .str]
      (.ref "WeaponComponent")
  , mth "DumpTable" [pr "array" (.arr .any)] .void
  , fld "Math" (.ref "Math")
  , fld "Table" (.ref "Table")
  , mth "SetTimeout" [pr "milliseconds" .num, pr "callback" (.fn0 .void)] .num
  , mth "ClearTimeout" [pr "id" .num] .void ]

/-- The declarations of `src/@types/common.d.ts`, in source order. -/
def common_d_ts : List Decl :=
  [PlayerData, InventoryItem, Job, LoadoutItem, Coords, Account, Weapon,
   WeaponComponent, Math, Table, Common]

/-! ### `src/@types/server.d.ts` -/

/-- `declare interface JobGrade` (server.d.ts lines 3-9). -/
def JobGrade : Decl := iface "JobGrade"
  [ fld "grade" .num
  , fld "label" .str
  , fld "salary" .num
  , fld "skin_male" (.arr .any)
  , fld "skin_female" (.arr .any) ]

/-- `declare interface ConfigJob` (server.d.ts lines 11-16). -/
def ConfigJob : Decl := iface "ConfigJob"
  [ fld "name" .str
  , fld "label" .str
  , fld "grades" (.rcd .str (.ref "JobGrade")) ]

/-- `export class XPlayer implements PlayerData` (server.d.ts lines
18-357): the fourteen `PlayerData` fields followed by the accessor
method signatures, in source order. -/
def XPlayer : Decl := ⟨"XPlayer", .cls, none, some "PlayerData",
  [ fld "accounts" (.arr (.ref "Account"))
  , fld "coords" (.ref "Coords")
  , fld "group" .str
  , fld "identifier" .str
  , fld "inventory" (.arr (.ref "InventoryItem"))
  , fld "job" (.ref "Job")
  , fld "loadout" (.arr (.ref "LoadoutItem"))
  , fld "name" .str
  , fld "playerId" .num
  , fld "source" .num
  , fld "variables" (.rcd .str .any)
  , fld "weight" .num
  , fld "maxWeight" .num
  , fld "metadata" (.rcd .str .any)
  , mth "addAccountMoney" [pr "account" .str, pr "money" .num] .void
  , mth "addInventoryItem" [pr "item" .str, pr "count" .num] .void
  , mth "addMoney" [pr "money" .num] .void
  , mth "addWeapon" [pr "weaponName" .str, pr "ammo" .num] .void
  , mth "addWeaponAmmo" [pr "weaponName" .str, pr "ammoCount" .num] .void
  , mth "addWeaponComponent" [pr "weaponName" .str, pr "weaponComponent" .str] .void
  , mth "canCarryItem" [pr "item" .str, pr "count" .num] .bool
  , mth "canSwapItem" [pr "firstItem" .str, pr "firstItemCount" .num,
      pr "testItem" .str, pr "testItemCount" .num] .bool
  , mth "clearMeta" [pr "index" (.union .str (.arr .str))] .void
  , mth "getMeta" [po "index" .str, po "subIndex" .str] .any
  , mth "getAccount" [pr "account" .str] (.ref "Account")
  , mth "getAccounts" [] (.arr (.ref "Account"))
  , mth "getCoords" [pr "useVector" .bool] (.ref "Coords")
  , mth "getGroup" [] .str
  , mth "getIdentifier" [] .str
  , mth "getInventory" [pr "minimal" .bool] (.arr (.ref "InventoryItem"))
  , mth "getInventoryItem" [pr "item" .str] (.ref "InventoryItem")
  , mth "getJob" [] (.ref "Job")
  , mth "getLoadout" [po "minimal" .bool] (.arr (.ref "LoadoutItem"))
  , mth "getMoney" [] .num
  , mth "getName" [] .str
  , mth "getWeapon" [pr "weaponName" .str] (.tup .num (.ref "LoadoutItem"))
  , mth "getWeaponTint" [pr "weaponName" .str] .num
  , mth "getWeight" [] .num
  , mth "hasItem" [pr "item" .str] (.tup (.ref "InventoryItem") .num)
  , mth "hasWeapon" [pr "weaponName" .str] .bool
  , mth "hasWeaponComponent" [pr "weaponName" .str, pr "weaponComponent" .str] .bool
  , mth "kick" [po "reason" .str] .void
  , mth "removeAccountMoney" [pr "account" .str, pr "money" .num] .void
  , mth "removeInventoryItem" [pr "item" .str, pr "count" .num] .void
  , mth "removeMoney" [pr "money" .num] .void
  , mth "removeWeapon" [pr "weaponName" .str] .void
  , mth "removeWeaponAmmo" [pr "weaponName" .str, pr "ammoCount" .num] .void
  , mth "removeWeaponComponent" [pr "weaponName" .str, pr "weaponComponent" .str] .void
  , mth "setMeta" [pr "index" .str, pr "value" .any, po "subValue" .str] .void
  , mth "setAccountMoney" [pr "account" .str, pr "money" .num] .void
  , mth "setCoords" [pr "coords" (.inter (.ref "Coords") (.obj1 "heading" .num true))] .void
  , mth "setInventoryItem" [pr "item" .str, pr "count" .num] .void
  , mth "setJob" [pr "name" .str, pr "grade" (.union .str .num)] .void
  , mth "setMaxWeight" [pr "newWeight" .num] .void
  , mth "setMoney" [pr "money" .num] .void
  , mth "setName" [pr "newName" .str] .void
  , mth "setWeaponTint" [pr "weaponName" .str, pr "weaponTintIndex" .num] .void
  , mth "showHelpNotification" [pr "msg" .str, pr "thisFrame" .bool, pr "beep" .bool,
      pr "duration" .num] .void
  , mth "showNotification" [pr "msg" .str] .void
  , mth "triggerEvent" [pr "eventName" .str, pRest "args" (.arr .any)] .void
  , mth "updateCoords" [] .void ]⟩

/-- `export class OneSync` (server.d.ts lines 359-408). -/
def OneSync : Decl := ⟨"OneSync", .cls, none, none,
  [ mth "SpawnObject" [pr "model" (.union .str .num), pr "coords" (.ref "Coords"),
      pr "heading" .num, po "cb" (.fn1 .num .void)] .void
  , mth "SpawnPed" [pr "model" (.union .str .num), pr "coords" (.ref "Coords"),
      pr "heading" .num, po "cb" (.fn1 .num .void)] .void
  , mth "SpawnPedInVehicle" [pr "model" (.union .str .num), pr "vehicle" .num,
      pr "seat" .num, po "cb" (.fn1 .num .void)] .void
  , mth "SpawnVehicle" [pr "model" (.union .str .num), pr "coords" (.ref "Coords"),
      pr "heading" .num, po "Properties" .any, po "cb" (.fn1 .num .void)] .void ]⟩

/-- The declarations of `src/@types/server.d.ts`, in source order. -/
def server_d_ts : List Decl := [JobGrade, ConfigJob, XPlayer, OneSync]

/-- All top-level declarations of the repository, in file and source
order. -/
def allDecls : List Decl := common_d_ts ++ server_d_ts

/-- The apostrophe character, U+0027. -/
def apos : String := String.singleton (Char.ofNat 39)

/-- The documentation comment of `XPlayer.getCoords` (server.d.ts lines
124-128), transcribed verbatim (the apostrophe is spliced in via
`apos`). -/
def getCoords_doc : String :=
  "TODO: Asked about serialization over events, need to test\nThis function returns the player" ++ apos ++ "s current coordinates on the server. The optional boolean useVector argument is for returning a vector3 type. Keep in mind that the coords sync interval can be adjusted in the configuration file in case you want to get precise player coords.\n@param useVector Returns an vector3 type if set to true, and normally a table with x, y and z pairs"

/-! ### Query functions over the embedded declarations -/

/-- Is this member a data field? -/
def Member.isField : Member → Bool
  | .field _ _ => true
  | .method _ _ _ _ _ => false

/-- The member name (field or method). -/
def Member.name : Member → String
  | .field n _ => n
  | .method n _ _ _ _ => n

/-- The body slot of a member: fields have none, methods carry their
`Option (List Stmt)` slot. -/
def Member.body : Member → Option (List Stmt)
  | .field _ _ => none
  | .method _ _ _ _ b => b

/-- The return type of a method member. -/
def Member.retTy : Member → Option Ty
  | .field _ _ => none
  | .method _ _ _ r _ => some r

/-- All type expressions occurring in a member signature. -/
def Member.tys : Member → List Ty
  | .field _ t => [t]
  | .method _ _ ps r _ => ps.map Param.ty ++ [r]

/-- Look up the declared type of a field by name. -/
def Decl.fieldTy (d : Decl) (n : String) : Option Ty :=
  d.members.findSome? fun m => match m with
    | .field f t => if f = n then some t else none
    | .method _ _ _ _ _ => none

/-- Names of the fields of a declaration, in source order. -/
def Decl.fieldNames (d : Decl) : List String :=
  (d.members.filter Member.isField).map Member.name

/-- Look up a method member by name. -/
def Decl.methodOf (d : Decl) (n : String) : Option Member :=
  d.members.find? fun m => !m.isField && m.name == n

/-- Declared return type of a method, by name. -/
def Decl.retTy (d : Decl) (n : String) : Option Ty :=
  (d.methodOf n).bind Member.retTy

/-- Declared parameter list of a method, by name. -/
def Decl.paramsOf (d : Decl) (n : String) : Option (List Param) :=
  (d.methodOf n).map fun m => match m with
    | .field _ _ => []
    | .method _ _ ps _ _ => ps

/-- Does a type expression carry an `undefined` branch at its top-level
union structure?  This is the syntactic shape by which a declared
return type models an absent result. -/
def Ty.bearsUndef : Ty → Bool
  | .undef => true
  | .union a b => a.bearsUndef || b.bearsUndef
  | _ => false

/-- All names referenced by a type expression via named type
references. -/
def Ty.refNames : Ty → List String
  | .ref m => [m]
  | .arr t => t.refNames
  | .rcd k v => k.refNames ++ v.refNames
  | .tup a b => a.refNames ++ b.refNames
  | .union a b => a.refNames ++ b.refNames
  | .inter a b => a.refNames ++ b.refNames
  | .part t => t.refNames
  | .obj1 _ t _ => t.refNames
  | .fn0 r => r.refNames
  | .fn1 a r => a.refNames ++ r.refNames
  | .fn3 a b c r => a.refNames ++ b.refNames ++ c.refNames ++ r.refNames
  | _ => []

/-- All type names a declaration references: names occurring in member
signatures, plus the targets of its `extends` and `implements`
clauses. -/
def Decl.refNames (d : Decl) : List String :=
  ((d.members.map Member.tys).flatten.map Ty.refNames).flatten
    ++ d.extendsClause.toList ++ d.implementsClause.toList

/-- Capture-avoiding-irrelevant substitution of type variables (the
declared signatures bind their variables at the method head, so plain
substitution instantiates a generic signature). -/
def Ty.subst (s : String → Ty) : Ty → Ty
  | .tyvar n => s n
  | .arr t => .arr (t.subst s)
  | .rcd k v => .rcd (k.subst s) (v.subst s)
  | .tup a b => .tup (a.subst s) (b.subst s)
  | .union a b => .union (a.subst s) (b.subst s)
  | .inter a b => .inter (a.subst s) (b.subst s)
  | .part t => .part (t.subst s)
  | .obj1 f t o => .obj1 f (t.subst s) o
  | .fn0 r => .fn0 (r.subst s)
  | .fn1 a r => .fn1 (a.subst s) (r.subst s)
  | .fn3 a b c r => .fn3 (a.subst s) (b.subst s) (c.subst s) (r.subst s)
  | t => t

/-- Instantiate a generic method signature at a type-variable
assignment: the parameter types and the return type, substituted. -/
def Decl.instMethod (d : Decl) (n : String) (s : String → Ty) :
    Option (List Ty × Ty) :=
  (d.methodOf n).bind fun m => match m with
    | .field _ _ => none
    | .method _ _ ps r _ => some (ps.map fun q => q.ty.subst s, r.subst s)

/-- Is `pat` a contiguous character-prefix of `l`? -/
def prefixOfChars : List Char → List Char → Bool
  | [], _ => true
  | _ :: _, [] => false
  | a :: as, b :: bs => a == b && prefixOfChars as bs

/-- Is `pat` a contiguous character-infix of `l`? -/
def infixOfChars (pat : List Char) : List Char → Bool
  | [] => prefixOfChars pat []
  | b :: bs => prefixOfChars pat (b :: bs) || infixOfChars pat bs

/-- Substring occurrence on strings. -/
def strContains (s pat : String) : Bool := infixOfChars pat.data s.data

/-! ### Derived notions used by the theorems -/

/-- The declaration of a given name, if one exists in the two files. -/
def declNamed (n : String) : Option Decl :=
  allDecls.find? fun d => d.dname == n

/-- The correspondence the spec gives between `JobGrade` fields and the
fields of the `Job` shape that `getJob` returns. -/
def gradeFieldMap : List (String × String) :=
  [("grade", "grade"), ("label", "grade_label"), ("salary", "grade_salary"),
   ("skin_male", "skin_male"), ("skin_female", "skin_female")]

/-- A declaration has failure-free return types when no declared method
returns a type with an `undefined` branch or a reference to an `Error`
type. -/
def errorFreeReturns (d : Decl) : Bool :=
  d.members.all fun m => match m.retTy with
    | none => true
    | some r => !r.bearsUndef && !(r.refNames.contains "Error")

/-- Edge of the reference graph on declared type names: `a` references
`b` when the declaration named `a` mentions `b` in a member signature or
in its `extends`/`implements` clause. -/
def edge (a b : String) : Prop :=
  ∃ d ∈ allDecls, d.dname = a ∧ b ∈ d.refNames

/-- Nonempty paths in the reference graph. -/
inductive Path : String → String → Prop where
  | single (a b : String) : edge a b → Path a b
  | cons (a b c : String) : edge a b → Path b c → Path a c

/-- A measure on type names that every reference-graph edge strictly
decreases; its existence makes the graph acyclic. -/
def rank (n : String) : Nat :=
  if n = "Common" ∨ n = "XPlayer" then 2
  else if n = "Weapon" ∨ n = "PlayerData" ∨ n = "ConfigJob" ∨ n = "OneSync" then 1
  else 0

/-- The eight data shapes the spec enumerates. -/
def dataShapeNames : List String :=
  ["PlayerData", "InventoryItem", "Job", "LoadoutItem", "Coords", "Account",
   "Weapon", "WeaponComponent"]

/-- The four groups of top-level declarations the spec enumerates:
player accessor, data shape definitions, math/table utilities, and
spawn helpers. -/
def accessorNames : List String := ["XPlayer"]

/-- Data shape definitions (the eight common shapes plus the two
server-side job shapes). -/
def dataShapeDeclNames : List String := dataShapeNames ++ ["JobGrade", "ConfigJob"]

/-- Math/table utility declarations. -/
def utilNames : List String := ["Math", "Table", "Common"]

/-- Object/ped/vehicle spawn helper declarations. -/
def spawnNames : List String := ["OneSync"]

/-- Concatenation of the four groups. -/
def groupNames : List String :=
  accessorNames ++ dataShapeDeclNames ++ utilNames ++ spawnNames

/-- A spawn-helper method returns `void` and delivers its result only
through a trailing optional callback parameter `cb` of type
`(netId: number) => void`. -/
def deliversNetIdOnlyViaCb (m : Member) : Bool :=
  match m with
  | .field _ _ => false
  | .method _ _ ps r _ =>
      r == .void
        && ((ps.getLast?.map fun q =>
              q.pname == "cb" && q.opt && q.ty == Ty.fn1 .num .void).getD false)

/-! ### Supporting lemmas -/

/-- Every edge of the reference graph strictly decreases `rank`. -/
theorem edge_rank_lt : ∀ a b : String, edge a b → rank b < rank a := by
  rintro a b ⟨d, hd, ha, hb⟩
  subst ha
  have h : ∀ d ∈ allDecls, ∀ r ∈ Decl.refNames d, rank r < rank d.dname := by decide
  exact h d hd b hb

/-- Every path of the reference graph strictly decreases `rank`. -/
theorem path_rank_lt : ∀ a b : String, Path a b → rank b < rank a := by
  intro a b hp
  induction hp with
  | single a b h => exact edge_rank_lt a b h
  | cons a b c h _ ih => exact lt_trans ih (edge_rank_lt a b h)

/-! ### The claims -/

/-- Claim C1: the player job accessor `getJob` returns the `Job` shape,
and every field of the `JobGrade` shape (`grade`, `label`, `salary`,
`skin_male`, `skin_female`) corresponds, with the same declared type, to
a field of `Job` (carried there as `grade`, `grade_label`,
`grade_salary`, `skin_male`, `skin_female`). -/
theorem claim_C1 :
    Decl.retTy XPlayer "getJob" = some (.ref "Job")
    ∧ Decl.fieldNames JobGrade = gradeFieldMap.map Prod.fst
    ∧ gradeFieldMap.all
        (fun q => (Decl.fieldTy JobGrade q.1).isSome
          && (Decl.fieldTy JobGrade q.1 == Decl.fieldTy Job q.2)) = true := by
  decide

/-- Claim C2: the `XPlayer` class carries an `implements PlayerData`
clause, `PlayerData` declares exactly the fourteen fields of the claim
and nothing else, and for every field of `PlayerData` the `XPlayer`
class declares a field of the same name with the identical type. -/
theorem claim_C2 :
    XPlayer.implementsClause = some "PlayerData"
    ∧ Decl.fieldNames PlayerData =
        ["accounts", "coords", "group", "identifier", "inventory", "job",
         "loadout", "name", "playerId", "source", "variables", "weight",
         "maxWeight", "metadata"]
    ∧ PlayerData.members.all Member.isField = true
    ∧ PlayerData.members.all
        (fun m => match m with
          | .field n t => XPlayer.fieldTy n == some t
          | .method _ _ _ _ _ => true) = true := by
  decide

/-- Claim C3: both source files consist of type declarations only:
every member of every declaration in `common.d.ts` and `server.d.ts` is
a signature whose body slot is empty, so no declared operation has a
body and no executable statement occurs anywhere. -/
theorem claim_C3 :
    allDecls.all (fun d => d.members.all (fun m => m.body.isNone)) = true
    ∧ common_d_ts.length = 11 ∧ server_d_ts.length = 4 := by
  decide

/-- Claim C4, counterexample: it is not the case that every method
declared on `XPlayer`, `OneSync`, `Common`, `Math` and `Table` has a
failure-free return type — `Table.Find` is declared on `Table` and its
declared return type `any | undefined` carries an `undefined` branch. -/
theorem claim_C4_counterexample :
    ¬ ([XPlayer, OneSync, Common, Math, Table].all errorFreeReturns = true)
    ∧ Decl.retTy Table "Find" = some (.union .any .undef)
    ∧ (Decl.retTy Table "Find").any Ty.bearsUndef = true := by
  refine ⟨?_, by decide, by decide⟩
  intro h
  exact absurd h (by decide)

/-- Claim C4, amended: every method declared on `XPlayer`, `OneSync`,
`Common` and `Math` has a return type with no `undefined` branch and no
reference to an `Error` type, and on `Table` every method except `Find`
does as well; `Find` alone is declared to return `any | undefined`. -/
theorem claim_C4_amended :
    [XPlayer, OneSync, Common, Math].all errorFreeReturns = true
    ∧ Table.members.all
        (fun m => m.name == "Find"
          || (match m.retTy with
              | none => true
              | some r => !r.bearsUndef && !(r.refNames.contains "Error"))) = true
    ∧ Decl.retTy Table "Find" = some (.union .any .undef) := by
  decide

/-- Claim C5: the reference graph among the fifteen declared interfaces
and classes is acyclic (no nonempty path returns to its start), no
declaration carries an `extends` clause, and `XPlayer` relates to
`PlayerData` through an `implements` clause — the only such clause in
the two files. -/
theorem claim_C5 :
    (¬ ∃ a : String, Path a a)
    ∧ allDecls.map Decl.dname =
        ["PlayerData", "InventoryItem", "Job", "LoadoutItem", "Coords",
         "Account", "Weapon", "WeaponComponent", "Math", "Table", "Common",
         "JobGrade", "ConfigJob", "XPlayer", "OneSync"]
    ∧ allDecls.all (fun d => d.extendsClause.isNone) = true
    ∧ XPlayer.implementsClause = some "PlayerData"
    ∧ allDecls.all
        (fun d => d.dname == "XPlayer" || d.implementsClause.isNone) = true := by
  refine ⟨?_, by decide, by decide, by decide, by decide⟩
  rintro ⟨a, h⟩
  exact absurd (path_rank_lt a a h) (lt_irrefl _)

/-- Claim C6: each of the eight declared data shapes — `PlayerData`,
`InventoryItem`, `Job`, `LoadoutItem`, `Coords`, `Account`, `Weapon`,
`WeaponComponent` — exists in the files and consists solely of data
fields, declaring no method signature. -/
theorem claim_C6 :
    dataShapeNames.all
      (fun n => ((declNamed n).map
        (fun d => d.members.all Member.isField && !d.members.isEmpty)).getD false)
      = true := by
  decide

/-- Claim C7: the fifteen top-level declarations fall into exactly one
of the four groups the spec enumerates (each declared name occurs
exactly once across the groups, and each grouped name is declared
exactly once); every data-shape declaration is fields-only; and
`OneSync` declares exactly `SpawnObject`, `SpawnPed`,
`SpawnPedInVehicle`, `SpawnVehicle`, each returning `void` and
delivering a network id only through a trailing optional callback. -/
theorem claim_C7 :
    (allDecls.map Decl.dname).all (fun n => groupNames.count n == 1) = true
    ∧ groupNames.all (fun n => (allDecls.map Decl.dname).count n == 1) = true
    ∧ dataShapeDeclNames.all
        (fun n => ((declNamed n).map
          (fun d => d.members.all Member.isField)).getD false) = true
    ∧ OneSync.members.map Member.name =
        ["SpawnObject", "SpawnPed", "SpawnPedInVehicle", "SpawnVehicle"]
    ∧ OneSync.members.all deliversNetIdOnlyViaCb = true := by
  decide

/-- Claim C8: the `Coords` shape declares exactly the fields `x`, `y`,
`Z` (the third capitalised, the first two lowercase), all numbers;
`getCoords` returns the `Coords` reference, `setCoords` consumes it
(intersected with an optional `heading`), every method parameter named
`coords` anywhere in the two files references the `Coords` shape — while
the documentation of `getCoords` itself describes the return as a table
with lowercase `x, y and z` pairs. -/
theorem claim_C8 :
    Decl.fieldNames Coords = ["x", "y", "Z"]
    ∧ Coords.members.all Member.isField = true
    ∧ (Decl.fieldTy Coords "x" == some .num
        && Decl.fieldTy Coords "y" == some .num
        && Decl.fieldTy Coords "Z" == some .num) = true
    ∧ ("x".data.all Char.isLower && "y".data.all Char.isLower
        && "Z".data.all Char.isUpper) = true
    ∧ Decl.retTy XPlayer "getCoords" = some (.ref "Coords")
    ∧ Decl.paramsOf XPlayer "setCoords" =
        some [pr "coords" (.inter (.ref "Coords") (.obj1 "heading" .num true))]
    ∧ allDecls.all
        (fun d => d.members.all (fun m => match m with
          | .method _ _ ps _ _ =>
              ps.all (fun q => q.pname != "coords" || q.ty.refNames.contains "Coords")
          | .field _ _ => true)) = true
    ∧ strContains getCoords_doc "a table with x, y and z pairs" = true := by
  decide

/-- Claim C9: `getWeapon` is declared to return the non-optional pair
`[number, LoadoutItem]` (index first) and `hasItem` the non-optional
pair `[InventoryItem, number]` (item first), and neither return type
carries an `undefined` branch. -/
theorem claim_C9 :
    Decl.retTy XPlayer "getWeapon" = some (.tup .num (.ref "LoadoutItem"))
    ∧ (Decl.retTy XPlayer "getWeapon").any Ty.bearsUndef = false
    ∧ Decl.retTy XPlayer "hasItem" = some (.tup (.ref "InventoryItem") .num)
    ∧ (Decl.retTy XPlayer "hasItem").any Ty.bearsUndef = false := by
  decide

/-- Claim C10: the generic `Table` utilities are shape-preserving at the
type level: for every instantiation of their type variables, `Clone`
takes `T` to `T`, `Sort` takes `T` (with its comparator over `T`) to
`T`, `Filter` takes `T` to `Partial T`, and `Concat` takes `T1`, `T2`
to the intersection `T1 & T2`. -/
theorem claim_C10 : ∀ A B : Ty,
    Decl.instMethod Table "Clone" (fun _ => A) = some ([A], A)
    ∧ Decl.instMethod Table "Sort" (fun _ => A) =
        some ([A, .fn3 A .any .any .bool], A)
    ∧ Decl.instMethod Table "Filter" (fun _ => A) =
        some ([A, .fn1 .any .bool], .part A)
    ∧ Decl.instMethod Table "Concat" (fun n => if n = "T1" then A else B) =
        some ([A, B], .inter A B) := by
  intro A B
  exact ⟨rfl, rfl, rfl, rfl⟩

end ESXJS

